import Mathlib

/-!
Verification development for the WebSocket subscription and reconnection
engine of the polymarket-sdk-go repository (client/websocket_client.go).

The engine is shallowly embedded as a state machine: the mutable fields of
the Go WebSocketClient become a Lean structure, each Go method becomes a
pure state-transformer that additionally returns the list of observable
effects it performs (dial attempts, frames written to the wire, callback
invocations), and the external world (credential derivation outcome, dial
outcome, write outcome, inbound frames) is passed in explicitly.
-/

namespace PolymarketWS

/-- Outcome of parsing the configured forward-proxy URL.  `malformed`
stands for a string Go's url.Parse rejects, such as
"http://proxy:badport" (invalid port). -/
inductive ProxyCfg
  | noProxy
  | validProxy
  | malformed
  deriving DecidableEq

/-- The immutable configuration of the client, from WebSocketClientOptions
(AutoReconnect, MaxReconnectAttempts, ProxyUrl).  The mutable AssetIDs
field lives in the state instead, since Subscribe and Unsubscribe mutate
it. -/
structure Config where
  autoReconnect : Bool
  maxReconnectAttempts : Nat
  proxy : ProxyCfg
  deriving DecidableEq

/-- Environment of one Connect() call: whether DeriveApiKey succeeds,
whether dialer.Dial succeeds, and whether the subscribe WriteJSON
succeeds. -/
structure ConnEnv where
  deriveOk : Bool
  dialOk : Bool
  sendOk : Bool
  deriving DecidableEq

/-- A JSON value occurring in the outbound subscribe message. -/
inductive JVal
  | str (s : String)
  | strList (l : List String)
  deriving DecidableEq

/-- The outbound market-channel subscribe message built by
sendSubscription: a JSON object with the keys assets_ids and type. -/
def marketSubscribeMessage (assets : List String) : List (String × JVal) :=
  [("assets_ids", JVal.strList assets), ("type", JVal.str "market")]

/-- Observable effects of the engine: a dial attempt, a frame written to
the wire, and the callbacks of WebSocketCallbacks. -/
inductive Effect
  | dial
  | sentFrame (message : List (String × JVal))
  | onConnect
  | onDisconnect
  | onReconnect (attempt : Nat)
  | onError
  deriving DecidableEq

/-- The mutable fields of WebSocketClient.  `conn` is whether ws.conn is
non-nil, `timerArmed` is whether ws.reconnectTimer is pending, and
`readLoopActive` is whether a handleMessages goroutine is running. -/
structure WSState where
  assetIDs : List String
  conn : Bool
  isConnecting : Bool
  shouldReconnect : Bool
  reconnectAttempts : Nat
  timerArmed : Bool
  readLoopActive : Bool
  deriving DecidableEq

/-- State of a client freshly built by NewWebSocketClient (conn nil,
shouldReconnect true, zero attempts). -/
def initState (assets : List String) : WSState :=
  { assetIDs := assets
    conn := false
    isConnecting := false
    shouldReconnect := true
    reconnectAttempts := 0
    timerArmed := false
    readLoopActive := false }

/-- IsConnected: ws.conn != nil. -/
def isConnected (s : WSState) : Bool :=
  s.conn

/-- Result of Connect(), distinguishing the error returns of the source. -/
inductive ConnectResult
  | ok
  | errCredDerive
  | errProxyParse
  | errDial
  | errSendSub
  deriving DecidableEq

/-- sendSubscription: reads conn and the asset list, errors when conn is
nil, otherwise writes the market subscribe message (the write may fail). -/
def sendSubscription (sendOk : Bool) (conn : Bool) (assets : List String) :
    List Effect × Except String Unit :=
  if conn = false then ([], Except.error "not connected")
  else
    let message := marketSubscribeMessage assets
    if sendOk then ([Effect.sentFrame message], Except.ok ())
    else ([], Except.error "write failed")

/-- Connect: no-op when connecting or already connected; sets the
connecting flag; derives credentials (resetting the flag on failure);
parses the proxy URL (note: the source does not reset isConnecting on
this failure path); dials; on success stores the connection, resets the
attempt counter, sends the subscription, starts the read loop, and fires
the on-connect callback. -/
def connectGo (cfg : Config) (env : ConnEnv) (s : WSState) :
    WSState × List Effect × ConnectResult :=
  if s.isConnecting || (s.conn && isConnected s) then
    (s, [], ConnectResult.ok)
  else
    let s1 : WSState := { s with isConnecting := true, shouldReconnect := true }
    if env.deriveOk = false then
      ({ s1 with isConnecting := false }, [], ConnectResult.errCredDerive)
    else if cfg.proxy = ProxyCfg.malformed then
      (s1, [], ConnectResult.errProxyParse)
    else if env.dialOk = false then
      ({ s1 with isConnecting := false }, [Effect.dial], ConnectResult.errDial)
    else
      let s2 : WSState :=
        { s1 with conn := true, isConnecting := false, reconnectAttempts := 0 }
      let sent := sendSubscription env.sendOk s2.conn s2.assetIDs
      match sent.2 with
      | Except.error _ => (s2, Effect.dial :: sent.1, ConnectResult.errSendSub)
      | Except.ok _ =>
        let s3 : WSState := { s2 with readLoopActive := true }
        (s3, (Effect.dial :: sent.1) ++ [Effect.onConnect], ConnectResult.ok)

/-- Subscribe: appends the ids to the asset list, and when connected
re-sends the full set, returning the send result to the caller. -/
def subscribeGo (sendOk : Bool) (s : WSState) (ids : List String) :
    WSState × List Effect × Except String Unit :=
  let s1 : WSState := { s with assetIDs := s.assetIDs ++ ids }
  if isConnected s1 then
    let sent := sendSubscription sendOk s1.conn s1.assetIDs
    (s1, sent.1, sent.2)
  else
    (s1, [], Except.ok ())

/-- Unsubscribe's filter: keep an id iff it equals none of the ids being
unsubscribed. -/
def unsubscribeGo (assets ids : List String) : List String :=
  assets.filter (fun id => !(ids.contains id))

/-- cleanup: stops the ping ticker and the pending reconnect timer. -/
def cleanup (s : WSState) : WSState :=
  { s with timerArmed := false }

/-- scheduleReconnect: refuses when the attempt cap is reached, otherwise
increments the counter, fires the on-reconnect callback with the new
attempt number, and arms the reconnect timer. -/
def scheduleReconnect (cfg : Config) (s : WSState) : WSState × List Effect :=
  if 0 < cfg.maxReconnectAttempts ∧ cfg.maxReconnectAttempts ≤ s.reconnectAttempts then
    (s, [])
  else
    let attempt := s.reconnectAttempts + 1
    ({ s with reconnectAttempts := attempt, timerArmed := true },
      [Effect.onReconnect attempt])

/-- handleDisconnect: cleanup, fire the on-disconnect callback, and when
shouldReconnect and AutoReconnect hold, schedule a reconnect.  Note that
the source never clears ws.conn here. -/
def handleDisconnect (cfg : Config) (s : WSState) : WSState × List Effect :=
  let s1 := cleanup s
  if s1.shouldReconnect && cfg.autoReconnect then
    let sch := scheduleReconnect cfg s1
    (sch.1, Effect.onDisconnect :: sch.2)
  else
    (s1, [Effect.onDisconnect])

/-- External events driving the session state machine. -/
inductive Ev
  | connect (env : ConnEnv)
  | subscribe (ids : List String) (sendOk : Bool)
  | unsubscribe (ids : List String)
  | disconnectCall
  | drop
  | timerFire (env : ConnEnv)
  deriving DecidableEq

/-- One step of the session: an external Connect or Disconnect call, a
Subscribe or Unsubscribe call, a transport drop ending the read loop
(which runs handleDisconnect), or the reconnect timer firing (which runs
Connect and discards its result). -/
def step (cfg : Config) (s : WSState) : Ev → WSState × List Effect
  | Ev.connect env =>
    let r := connectGo cfg env s
    (r.1, r.2.1)
  | Ev.subscribe ids sendOk =>
    let r := subscribeGo sendOk s ids
    (r.1, r.2.1)
  | Ev.unsubscribe ids =>
    ({ s with assetIDs := unsubscribeGo s.assetIDs ids }, [])
  | Ev.disconnectCall =>
    let s1 : WSState := { s with shouldReconnect := false }
    let s2 := cleanup s1
    ({ s2 with conn := false }, [])
  | Ev.drop =>
    if s.readLoopActive then
      handleDisconnect cfg { s with readLoopActive := false }
    else
      (s, [])
  | Ev.timerFire env =>
    if s.timerArmed then
      let r := connectGo cfg env { s with timerArmed := false }
      (r.1, r.2.1)
    else
      (s, [])

/-- Run a list of events, concatenating the observable effects. -/
def run (cfg : Config) (s : WSState) : List Ev → WSState × List Effect
  | [] => (s, [])
  | e :: evs =>
    let p := step cfg s e
    let q := run cfg p.1 evs
    (q.1, p.2 ++ q.2)

/-- The most recently written subscribe frame among a list of effects. -/
def lastFrame (effs : List Effect) : Option (List (String × JVal)) :=
  effs.foldl
    (fun acc e =>
      match e with
      | Effect.sentFrame m => some m
      | _ => acc)
    none

/-- The asset list carried by a subscribe frame (its assets_ids field). -/
def frameAssets (m : List (String × JVal)) : List String :=
  match m.lookup "assets_ids" with
  | some (JVal.strList l) => l
  | _ => []

/-- Whether an effect is an on-reconnect-attempt callback. -/
def isOnReconnectEff : Effect → Bool
  | Effect.onReconnect _ => true
  | _ => false

/-- A list of effects contains no on-reconnect-attempt callback. -/
def noReconnectEffects (effs : List Effect) : Bool :=
  effs.all (fun e => !(isOnReconnectEff e))

/-- An event that is neither an external Connect call nor a reconnect
timer firing into a successful connect environment. -/
def evNoConnectAndFailingTimer : Ev → Bool
  | Ev.connect _ => false
  | Ev.timerFire env => !env.deriveOk || !env.dialOk
  | _ => true

/-- Whether an Except result is a success. -/
def exceptIsOk : Except String Unit → Bool
  | Except.ok _ => true
  | _ => false

/-- Subscription-registry operations performed while connected. -/
inductive SubOp
  | sub (ids : List String)
  | unsub (ids : List String)

/-- A registry operation as a session event (Subscribe sends succeed). -/
def subOpToEv : SubOp → Ev
  | SubOp.sub ids => Ev.subscribe ids true
  | SubOp.unsub ids => Ev.unsubscribe ids

/-- A sequence of registry operations as session events. -/
def opsToEvs (ops : List SubOp) : List Ev :=
  ops.map subOpToEv

/-!
The inbound side: the read loop, message splitting and dispatch.  A raw
text payload is abstracted to its JSON shape: plain text (non-JSON, such
as the PONG heartbeat or garbage), a JSON object with an optional
event_type discriminator field, or a JSON array of sub-payloads.
-/

/-- The JSON shape of one inbound text payload. -/
inductive Raw
  | text (s : String)
  | obj (eventType : Option String)
  | arr (items : List Raw)

/-- The four event kinds of the market channel. -/
inductive EventKind
  | book
  | priceChange
  | tickSizeChange
  | lastTradePrice
  deriving DecidableEq

/-- Which callbacks of WebSocketCallbacks are registered. -/
structure Callbacks where
  onBook : Bool
  onPriceChange : Bool
  onTickSizeChange : Bool
  onLastTradePrice : Bool
  onMessage : Bool
  onError : Bool

/-- Observable dispatch effects of the read loop: a type-specific
callback, the general message callback, or the error callback (carrying
the raw payload for diagnostics). -/
inductive DEffect
  | typedCb (k : EventKind)
  | messageCb (k : EventKind)
  | errorCb (raw : Raw)

/-- Modelled from the spec: types.ParseMarketChannelMessage (the Message
Codec of the types package, whose source is not under src/).  Per the
spec, a known event_type discriminator field names the event kind (book,
price_change, tick_size_change, last_trade_price); an unknown or missing
discriminator, or a payload that is not a JSON object, is a decode
error. -/
def parseMarketChannelMessage : Raw → Option EventKind
  | Raw.obj (some "book") => some EventKind.book
  | Raw.obj (some "price_change") => some EventKind.priceChange
  | Raw.obj (some "tick_size_change") => some EventKind.tickSizeChange
  | Raw.obj (some "last_trade_price") => some EventKind.lastTradePrice
  | _ => none

/-- handleError: invoke OnError when registered, otherwise only log. -/
def handleErrorD (cb : Callbacks) (r : Raw) : List DEffect :=
  if cb.onError then [DEffect.errorCb r] else []

/-- parseAndDispatch: decode one raw payload; on failure report through
handleError and return; on success invoke the matching type-specific
callback when registered, then the general message callback when
registered. -/
def parseAndDispatch (cb : Callbacks) (r : Raw) : List DEffect :=
  match parseMarketChannelMessage r with
  | none => handleErrorD cb r
  | some k =>
    let typed : List DEffect :=
      match k with
      | EventKind.book =>
        if cb.onBook then [DEffect.typedCb EventKind.book] else []
      | EventKind.priceChange =>
        if cb.onPriceChange then [DEffect.typedCb EventKind.priceChange] else []
      | EventKind.tickSizeChange =>
        if cb.onTickSizeChange then [DEffect.typedCb EventKind.tickSizeChange] else []
      | EventKind.lastTradePrice =>
        if cb.onLastTradePrice then [DEffect.typedCb EventKind.lastTradePrice] else []
    let general : List DEffect :=
      if cb.onMessage then [DEffect.messageCb k] else []
    typed ++ general

/-- Dispatch each payload of a list independently, in order. -/
def dispatchList (cb : Callbacks) : List Raw → List DEffect
  | [] => []
  | r :: rs => parseAndDispatch cb r ++ dispatchList cb rs

/-- processMessage: try the payload as a JSON array of raw sub-messages
first and dispatch each in array order; otherwise dispatch it as a
single message. -/
def processMessage (cb : Callbacks) (r : Raw) : List DEffect :=
  match r with
  | Raw.arr items => dispatchList cb items
  | _ => parseAndDispatch cb r

/-- Whether a payload is the literal text PONG (the Go read loop compares
string(message) with that literal). -/
def isPongLiteral : Raw → Bool
  | Raw.text s => s == "PONG"
  | _ => false

/-- Whether a payload is a JSON array. -/
def isArrRaw : Raw → Bool
  | Raw.arr _ => true
  | _ => false

/-- One inbound WebSocket frame: its message type (text or not) and its
payload. -/
structure Frame where
  isText : Bool
  raw : Raw

/-- The body of handleMessages for one frame: only text frames are
handled; a literal PONG is discarded; everything else goes through
processMessage. -/
def handleFrame (cb : Callbacks) (f : Frame) : List DEffect :=
  if f.isText then
    if isPongLiteral f.raw then [] else processMessage cb f.raw
  else
    []

/-- The read loop over the frames delivered before the transport read
fails: each frame is handled in order of receipt. -/
def readLoop (cb : Callbacks) : List Frame → List DEffect
  | [] => []
  | f :: fs => handleFrame cb f ++ readLoop cb fs

/-! Concrete fixtures used by the theorems below. -/

/-- A configuration with no auto-reconnect and no proxy. -/
def cfgPlain : Config :=
  { autoReconnect := false, maxReconnectAttempts := 0, proxy := ProxyCfg.noProxy }

/-- A configuration with auto-reconnect and a cap of three attempts. -/
def cfgAuto : Config :=
  { autoReconnect := true, maxReconnectAttempts := 3, proxy := ProxyCfg.noProxy }

/-- A configuration whose proxy URL is rejected by url.Parse. -/
def cfgBadProxy : Config :=
  { autoReconnect := false, maxReconnectAttempts := 0, proxy := ProxyCfg.malformed }

/-- An environment where derivation, dial and write all succeed. -/
def goodEnv : ConnEnv := { deriveOk := true, dialOk := true, sendOk := true }

/-- An environment where credential derivation fails. -/
def envNoDerive : ConnEnv := { deriveOk := false, dialOk := true, sendOk := true }

/-- An environment where the dial fails. -/
def envNoDial : ConnEnv := { deriveOk := true, dialOk := false, sendOk := true }

/-- A connected session state with an empty registry. -/
def connectedState : WSState :=
  { assetIDs := []
    conn := true
    isConnecting := false
    shouldReconnect := true
    reconnectAttempts := 0
    timerArmed := false
    readLoopActive := true }

/-- A configuration with auto-reconnect and a cap of one attempt. -/
def cfgCapOne : Config :=
  { autoReconnect := true, maxReconnectAttempts := 1, proxy := ProxyCfg.noProxy }

/-- A connected session whose reconnect-attempt counter has reached the
configured cap of one, with the attempt's timer already fired. -/
def sExhausted : WSState :=
  { assetIDs := ["A"]
    conn := true
    isConnecting := false
    shouldReconnect := true
    reconnectAttempts := 1
    timerArmed := false
    readLoopActive := true }

/-- A callback set with every handler registered. -/
def cbAll : Callbacks :=
  { onBook := true, onPriceChange := true, onTickSizeChange := true,
    onLastTradePrice := true, onMessage := true, onError := true }

/-- A callback set with only the general message and error handlers. -/
def cbGeneralOnly : Callbacks :=
  { onBook := false, onPriceChange := false, onTickSizeChange := false,
    onLastTradePrice := false, onMessage := true, onError := true }

/-- Claim C1: the claim says the Connect() invocation made by the
reconnect timer after a transport drop does not take the
already-connected no-op branch and performs a fresh dial plus a
subscribe frame.  The code refutes it: after a successful connect and a
transport drop the reconnect timer is armed, but ws.conn was never
cleared by the read-loop exit path, so the timer's Connect() sees a
non-nil connection, takes the no-op branch, and performs no dial and no
send at all (its effect list is empty). -/
theorem reconnect_timer_connect_is_noop :
    (run cfgAuto (initState ["A"]) [Ev.connect goodEnv, Ev.drop]).1.timerArmed = true ∧
    (run cfgAuto (initState ["A"]) [Ev.connect goodEnv, Ev.drop]).1.conn = true ∧
    (step cfgAuto (run cfgAuto (initState ["A"]) [Ev.connect goodEnv, Ev.drop]).1
        (Ev.timerFire goodEnv)).2 = [] := by
  decide

/-- Claim C5: the claim says every failed Connect() leaves the state as
if disconnected from scratch, so a retry behaves like a first Connect().
The code refutes it on the malformed-proxy-URL path: that error return
does not reset isConnecting, so the flag sticks and every subsequent
Connect() takes the no-op branch, returns success, and never dials. -/
theorem proxy_parse_error_sticks_connecting_flag :
    (connectGo cfgBadProxy goodEnv (initState [])).2.2 = ConnectResult.errProxyParse ∧
    (connectGo cfgBadProxy goodEnv (initState [])).1.isConnecting = true ∧
    (connectGo cfgBadProxy goodEnv (connectGo cfgBadProxy goodEnv (initState [])).1).2.2
      = ConnectResult.ok ∧
    (connectGo cfgBadProxy goodEnv (connectGo cfgBadProxy goodEnv (initState [])).1).2.1 = [] ∧
    (connectGo cfgBadProxy goodEnv (connectGo cfgBadProxy goodEnv (initState [])).1).1
      = (connectGo cfgBadProxy goodEnv (initState [])).1 := by
  decide

/-- Claim C2, counterexample: the claim says the most recently sent
subscribe frame always equals the current registry content and contains
no duplicates.  Subscribing the same id twice produces a frame with a
duplicated asset list, and an Unsubscribe after the last Subscribe sends
nothing, leaving the last frame different from the current registry. -/
theorem last_frame_diverges_from_registry_cex :
    lastFrame (run cfgPlain connectedState
        [Ev.subscribe ["A"] true, Ev.subscribe ["A"] true]).2
      = some (marketSubscribeMessage ["A", "A"]) ∧
    ¬ List.Nodup (frameAssets (marketSubscribeMessage ["A", "A"])) ∧
    lastFrame (run cfgPlain connectedState
        [Ev.subscribe ["A", "B"] true, Ev.unsubscribe ["A"]]).2
      = some (marketSubscribeMessage ["A", "B"]) ∧
    (run cfgPlain connectedState
        [Ev.subscribe ["A", "B"] true, Ev.unsubscribe ["A"]]).1.assetIDs = ["B"] ∧
    frameAssets (marketSubscribeMessage ["A", "B"]) ≠ ["B"] := by
  decide

/-- Claim C3, counterexample: the claim says a failed re-send inside
Subscribe is reported through the error callback and Subscribe returns
success.  The code refutes both halves: Subscribe returns the send error
to the caller, and performs no callback at all on that path. -/
theorem subscribe_send_failure_cex :
    exceptIsOk (subscribeGo false connectedState ["A"]).2.2 = false ∧
    (subscribeGo false connectedState ["A"]).2.1 = [] := by
  decide

/-- Claim C3, amended: when Subscribe is called while connected and the
re-send of the updated subscribe frame fails, the send error is returned
to the caller (Subscribe does not return success), no callback (in
particular no error callback) is invoked, and the registry was already
updated with the new ids. -/
theorem subscribe_send_failure_returned_to_caller (s : WSState) (ids : List String)
    (hconn : s.conn = true) :
    exceptIsOk (subscribeGo false s ids).2.2 = false ∧
    (subscribeGo false s ids).2.1 = [] ∧
    (subscribeGo false s ids).1.assetIDs = s.assetIDs ++ ids := by
  simp [subscribeGo, sendSubscription, isConnected, hconn, exceptIsOk]

/-- Witness for the amended claim C3 at a concrete connected state. -/
theorem subscribe_send_failure_returned_to_caller_witness :
    exceptIsOk (subscribeGo false connectedState ["B"]).2.2 = false ∧
    (subscribeGo false connectedState ["B"]).2.1 = [] ∧
    (subscribeGo false connectedState ["B"]).1.assetIDs
      = connectedState.assetIDs ++ ["B"] :=
  subscribe_send_failure_returned_to_caller connectedState ["B"] rfl

/-- Claim C4, counterexample: the claim says Connect() of this
market-channel client does not fail because credential derivation
failed.  The code refutes it: Connect() derives credentials first and
returns the derivation error. -/
theorem connect_fails_without_credentials_cex :
    (connectGo cfgPlain envNoDerive (initState [])).2.2 = ConnectResult.errCredDerive := by
  decide

/-- Claim C4, amended: Connect() always derives credentials and fails
when derivation fails, even though this client dials only the
market-data channel; the market subscribe frame itself carries no
credential material (its keys are exactly assets_ids and type, with no
auth object). -/
theorem connect_requires_credentials_market_frame_unauthenticated
    (cfg : Config) (env : ConnEnv) (s : WSState) (assets : List String)
    (hderive : env.deriveOk = false) (hic : s.isConnecting = false) (hc : s.conn = false) :
    (connectGo cfg env s).2.2 = ConnectResult.errCredDerive ∧
    (marketSubscribeMessage assets).map Prod.fst = ["assets_ids", "type"] ∧
    (marketSubscribeMessage assets).lookup "auth" = none := by
  refine ⟨?_, rfl, rfl⟩
  simp [connectGo, hic, hc, isConnected, hderive]

/-- Witness for the amended claim C4 at a concrete fresh state. -/
theorem connect_requires_credentials_market_frame_unauthenticated_witness :
    (connectGo cfgPlain envNoDerive (initState [])).2.2 = ConnectResult.errCredDerive ∧
    (marketSubscribeMessage ["A"]).map Prod.fst = ["assets_ids", "type"] ∧
    (marketSubscribeMessage ["A"]).lookup "auth" = none :=
  connect_requires_credentials_market_frame_unauthenticated cfgPlain envNoDerive
    (initState []) ["A"] rfl rfl rfl

/-- Appending a frame send to an effect trace makes it the most recently
sent frame. -/
theorem lastFrame_append_sent (l : List Effect) (m : List (String × JVal)) :
    lastFrame (l ++ [Effect.sentFrame m]) = some m := by
  unfold lastFrame
  rw [List.foldl_append]
  rfl

/-- Running a concatenation of event lists runs them in sequence and
concatenates the effects. -/
theorem run_append (cfg : Config) (l1 l2 : List Ev) : ∀ s : WSState,
    run cfg s (l1 ++ l2)
      = ((run cfg (run cfg s l1).1 l2).1,
         (run cfg s l1).2 ++ (run cfg (run cfg s l1).1 l2).2) := by
  induction l1 with
  | nil => intro s; simp [run]
  | cons e l1 ih => intro s; simp [run, ih, List.append_assoc]

/-- Subscribe and Unsubscribe steps never change the connection handle. -/
theorem step_subOp_conn (cfg : Config) (s : WSState) (op : SubOp) :
    (step cfg s (subOpToEv op)).1.conn = s.conn := by
  cases op with
  | sub ids =>
      simp only [subOpToEv, step, subscribeGo]
      split <;> rfl
  | unsub ids => rfl

/-- A run of registry operations never changes the connection handle. -/
theorem run_opsToEvs_conn (cfg : Config) (ops : List SubOp) : ∀ s : WSState,
    (run cfg s (opsToEvs ops)).1.conn = s.conn := by
  induction ops with
  | nil => intro s; rfl
  | cons op ops ih =>
      intro s
      simp only [opsToEvs, List.map_cons, run]
      rw [← opsToEvs, ih, step_subOp_conn]

/-- Claim C2, amended: for every sequence of Subscribe and Unsubscribe
calls made while connected, after each Subscribe whose send succeeds the
most recently sent subscribe frame equals exactly the current registry
content at that moment — where the registry appends added ids in order
without deduplication and removes every occurrence of removed ids.
(Unsubscribe sends nothing, so after a trailing Unsubscribe the last
frame may lag behind the registry, and duplicate adds are retained, as
the counterexample shows.) -/
theorem subscribe_resend_matches_registry (cfg : Config) (s : WSState)
    (ops : List SubOp) (ids : List String) (hconn : s.conn = true) :
    lastFrame (run cfg s (opsToEvs ops ++ [Ev.subscribe ids true])).2
      = some (marketSubscribeMessage
          (run cfg s (opsToEvs ops ++ [Ev.subscribe ids true])).1.assetIDs) := by
  rw [run_append]
  have hc : (run cfg s (opsToEvs ops)).1.conn = true := by
    rw [run_opsToEvs_conn]; exact hconn
  have h2 : (run cfg (run cfg s (opsToEvs ops)).1 [Ev.subscribe ids true]).2
      = [Effect.sentFrame (marketSubscribeMessage
          ((run cfg s (opsToEvs ops)).1.assetIDs ++ ids))] := by
    simp [run, step, subscribeGo, sendSubscription, isConnected, hc]
  have h1 : (run cfg (run cfg s (opsToEvs ops)).1 [Ev.subscribe ids true]).1.assetIDs
      = (run cfg s (opsToEvs ops)).1.assetIDs ++ ids := by
    simp [run, step, subscribeGo, sendSubscription, isConnected, hc]
  rw [h2, h1, lastFrame_append_sent]

/-- Witness for the amended claim C2: a subscribe, an unsubscribe and a
final subscribe from a concrete connected state. -/
theorem subscribe_resend_matches_registry_witness :
    lastFrame (run cfgPlain connectedState
        (opsToEvs [SubOp.sub ["B"], SubOp.unsub ["B"]] ++ [Ev.subscribe ["A"] true])).2
      = some (marketSubscribeMessage
          (run cfgPlain connectedState
            (opsToEvs [SubOp.sub ["B"], SubOp.unsub ["B"]]
              ++ [Ev.subscribe ["A"] true])).1.assetIDs) :=
  subscribe_resend_matches_registry cfgPlain connectedState
    [SubOp.sub ["B"], SubOp.unsub ["B"]] ["A"] rfl

/-- One step preserves the exhausted-cap invariant: with the attempt
counter at or above a nonzero cap and no pending timer, any event other
than an external Connect call (and whose timer-driven connect
environment would fail) fires no on-reconnect callback, arms no timer,
and never lowers the counter. -/
theorem step_inv_cap (cfg : Config) (s : WSState) (e : Ev)
    (hmax : 0 < cfg.maxReconnectAttempts)
    (hatt : cfg.maxReconnectAttempts ≤ s.reconnectAttempts)
    (ht : s.timerArmed = false)
    (he : evNoConnectAndFailingTimer e = true) :
    noReconnectEffects (step cfg s e).2 = true ∧
    (step cfg s e).1.timerArmed = false ∧
    cfg.maxReconnectAttempts ≤ (step cfg s e).1.reconnectAttempts := by
  cases e with
  | connect env => simp [evNoConnectAndFailingTimer] at he
  | subscribe ids sendOk =>
      simp only [step, subscribeGo, sendSubscription]
      split
      · split
        · simp_all [noReconnectEffects, isOnReconnectEff]
        · split <;> simp_all [noReconnectEffects, isOnReconnectEff]
      · simp_all [noReconnectEffects, isOnReconnectEff]
  | unsubscribe ids => simp_all [step, noReconnectEffects]
  | disconnectCall => simp_all [step, cleanup, noReconnectEffects]
  | drop =>
      simp only [step]
      split
      · simp only [handleDisconnect, cleanup, scheduleReconnect]
        split
        · split
          · simp_all [noReconnectEffects, isOnReconnectEff]
          · simp_all
        · simp_all [noReconnectEffects, isOnReconnectEff]
      · simp_all [noReconnectEffects]
  | timerFire env =>
      simp only [step, ht]
      simp [noReconnectEffects, ht, hatt]

/-- A whole run preserves the exhausted-cap invariant. -/
theorem run_inv_cap (cfg : Config) (hmax : 0 < cfg.maxReconnectAttempts) :
    ∀ (evs : List Ev) (s : WSState),
      cfg.maxReconnectAttempts ≤ s.reconnectAttempts →
      s.timerArmed = false →
      evs.all evNoConnectAndFailingTimer = true →
      noReconnectEffects (run cfg s evs).2 = true ∧
      (run cfg s evs).1.timerArmed = false := by
  intro evs
  induction evs with
  | nil => intro s hatt ht _; exact ⟨rfl, ht⟩
  | cons e evs ih =>
      intro s hatt ht hevs
      simp only [List.all_cons, Bool.and_eq_true] at hevs
      obtain ⟨he, hrest⟩ := hevs
      obtain ⟨h1, h2, h3⟩ := step_inv_cap cfg s e hmax hatt ht he
      obtain ⟨h4, h5⟩ := ih (step cfg s e).1 h3 h2 hrest
      refine ⟨?_, ?_⟩
      · simp only [run, noReconnectEffects, List.all_append, Bool.and_eq_true]
        exact ⟨h1, h4⟩
      · simpa only [run] using h5

/-- Claim C6: with a nonzero maximum of reconnect attempts, once the
attempt counter has reached the maximum with all redial attempts failed
(no successful connect, so the counter was never reset, and the last
armed timer has fired), then for any further events that include no
external Connect call and whose timer-driven connect environments fail,
the controller fires no on-reconnect-attempt callback and arms no
reconnect timer. -/
theorem reconnect_cap_terminal (cfg : Config) (s : WSState) (evs : List Ev)
    (hmax : 0 < cfg.maxReconnectAttempts)
    (hatt : cfg.maxReconnectAttempts ≤ s.reconnectAttempts)
    (ht : s.timerArmed = false)
    (hevs : evs.all evNoConnectAndFailingTimer = true) :
    noReconnectEffects (run cfg s evs).2 = true ∧
    (run cfg s evs).1.timerArmed = false :=
  run_inv_cap cfg hmax evs s hatt ht hevs

/-- Witness for claim C6: cap one, counter one, further drops and a
failing timer-driven redial produce no reconnect callback. -/
theorem reconnect_cap_terminal_witness :
    noReconnectEffects
        (run cfgCapOne sExhausted [Ev.drop, Ev.drop, Ev.timerFire envNoDial]).2 = true ∧
    (run cfgCapOne sExhausted [Ev.drop, Ev.drop, Ev.timerFire envNoDial]).1.timerArmed
      = false :=
  reconnect_cap_terminal cfgCapOne sExhausted [Ev.drop, Ev.drop, Ev.timerFire envNoDial]
    (by decide) (by decide) rfl (by decide)

/-- Claim C7: a text frame whose payload fails to decode into a
market-channel message (and is neither the PONG literal nor a batched
array, whose elements are decoded individually) invokes the registered
error callback exactly once, invokes no typed and no general message
callback, and does not terminate the read loop: the remaining frames are
processed exactly as they would be on their own. -/
theorem bad_frame_single_error_then_continue (cb : Callbacks) (r : Raw)
    (rest : List Frame)
    (hparse : parseMarketChannelMessage r = none)
    (herr : cb.onError = true)
    (harr : isArrRaw r = false)
    (hpong : isPongLiteral r = false) :
    readLoop cb (Frame.mk true r :: rest) = DEffect.errorCb r :: readLoop cb rest := by
  cases r <;>
    simp_all [readLoop, handleFrame, processMessage, parseAndDispatch, handleErrorD,
      isArrRaw, isPongLiteral]

/-- Witness for claim C7: a garbage payload followed by a valid book
event fires the error callback once and the next frame still
dispatches. -/
theorem bad_frame_single_error_then_continue_witness :
    readLoop cbAll [Frame.mk true (Raw.text "junk"), Frame.mk true (Raw.obj (some "book"))]
      = DEffect.errorCb (Raw.text "junk")
          :: readLoop cbAll [Frame.mk true (Raw.obj (some "book"))] :=
  bad_frame_single_error_then_continue cbAll (Raw.text "junk")
    [Frame.mk true (Raw.obj (some "book"))] rfl rfl rfl rfl

/-- Claim C8: a text frame that parses as a JSON array dispatches each
sub-message independently and in array order; with the general message
callback registered (and no typed callbacks), an array of two valid
event objects produces exactly two dispatch invocations, in array
order. -/
theorem array_frame_two_dispatches_in_order (cb : Callbacks) (r1 r2 : Raw)
    (k1 k2 : EventKind)
    (h1 : parseMarketChannelMessage r1 = some k1)
    (h2 : parseMarketChannelMessage r2 = some k2)
    (hm : cb.onMessage = true)
    (hb : cb.onBook = false) (hp : cb.onPriceChange = false)
    (hts : cb.onTickSizeChange = false) (hlt : cb.onLastTradePrice = false) :
    readLoop cb [Frame.mk true (Raw.arr [r1, r2])]
      = [DEffect.messageCb k1, DEffect.messageCb k2] := by
  cases k1 <;> cases k2 <;>
    simp_all [readLoop, handleFrame, isPongLiteral, processMessage, dispatchList,
      parseAndDispatch]

/-- Witness for claim C8: a batched frame with a book event and a
last-trade-price event dispatches exactly those two, in order. -/
theorem array_frame_two_dispatches_in_order_witness :
    readLoop cbGeneralOnly
        [Frame.mk true (Raw.arr [Raw.obj (some "book"), Raw.obj (some "last_trade_price")])]
      = [DEffect.messageCb EventKind.book, DEffect.messageCb EventKind.lastTradePrice] :=
  array_frame_two_dispatches_in_order cbGeneralOnly (Raw.obj (some "book"))
    (Raw.obj (some "last_trade_price")) EventKind.book EventKind.lastTradePrice
    rfl rfl rfl rfl rfl rfl rfl

/-- Claim C9: a text frame whose payload is the literal PONG is
discarded by the read loop: it contributes no callback of any kind, and
the remaining frames are processed exactly as they would be on their
own. -/
theorem pong_frame_discarded (cb : Callbacks) (rest : List Frame) :
    readLoop cb (Frame.mk true (Raw.text "PONG") :: rest) = readLoop cb rest := by
  simp [readLoop, handleFrame, isPongLiteral]

/-- Claim C10: Unsubscribe removes every occurrence of each id being
unsubscribed, keeps the retained ids in their relative order (the result
is a sublist), leaves the multiplicity of every other id unchanged, is
idempotent, and its session step sends nothing to the server while
storing exactly the filtered registry. -/
theorem unsubscribe_removes_all_preserves_rest (assets ids : List String)
    (x y : String) (cfg : Config) (s : WSState)
    (hx : x ∈ ids) (hy : y ∉ ids) :
    x ∉ unsubscribeGo assets ids ∧
    List.Sublist (unsubscribeGo assets ids) assets ∧
    List.count y (unsubscribeGo assets ids) = List.count y assets ∧
    unsubscribeGo (unsubscribeGo assets ids) ids = unsubscribeGo assets ids ∧
    (step cfg s (Ev.unsubscribe ids)).2 = [] ∧
    (step cfg s (Ev.unsubscribe ids)).1.assetIDs = unsubscribeGo s.assetIDs ids := by
  refine ⟨?_, List.filter_sublist assets, ?_, ?_, rfl, rfl⟩
  · intro hmem
    rw [unsubscribeGo, List.mem_filter] at hmem
    simp [List.contains] at hmem
    exact hmem.2 hx
  · exact List.count_filter (by simp [List.contains]; exact hy)
  · simp only [unsubscribeGo]
    rw [List.filter_filter]
    simp only [Bool.and_self]

/-- Witness for claim C10 at a concrete registry and id list. -/
theorem unsubscribe_removes_all_preserves_rest_witness :
    "A" ∉ unsubscribeGo ["A", "B", "A", "C"] ["A", "Z"] ∧
    List.Sublist (unsubscribeGo ["A", "B", "A", "C"] ["A", "Z"]) ["A", "B", "A", "C"] ∧
    List.count "B" (unsubscribeGo ["A", "B", "A", "C"] ["A", "Z"])
      = List.count "B" ["A", "B", "A", "C"] ∧
    unsubscribeGo (unsubscribeGo ["A", "B", "A", "C"] ["A", "Z"]) ["A", "Z"]
      = unsubscribeGo ["A", "B", "A", "C"] ["A", "Z"] ∧
    (step cfgPlain connectedState (Ev.unsubscribe ["A", "Z"])).2 = [] ∧
    (step cfgPlain connectedState (Ev.unsubscribe ["A", "Z"])).1.assetIDs
      = unsubscribeGo connectedState.assetIDs ["A", "Z"] :=
  unsubscribe_removes_all_preserves_rest ["A", "B", "A", "C"] ["A", "Z"] "A" "B"
    cfgPlain connectedState (by decide) (by decide)

end PolymarketWS
